import Mathlib

/-!
Shallow embedding of the tetra-linux/tetra-pkgmgr package manager core
(identifier parser, repository resolver, content-addressed cache, and the
per-source fetch loop of `main`), together with theorems settling the
spec claims against it.

Strings are modelled as `List Char` (`Str`), filesystem paths as lists of
path segments (`FsPath`), and the filesystem itself as a pair of partial
maps: file path to byte content, and directory path to existence.  The
blake3 hash primitive is abstracted as an arbitrary function
`hashFn : Content → Nat`; all cache claims are relational in the hash, so
nothing depends on the concrete digest function.
-/

set_option autoImplicit false

namespace TetraPkg

/-- Strings, modelled as lists of characters (mirroring Rust `str` at the
character level; all inputs of interest are ASCII, where the two views
coincide position by position). -/
abbrev Str := List Char

/-- Embeds struct `PackageId` from `src/model/package_id.rs`. -/
structure PackageId where
  repo : Str
  name : Str
  version : Str
  flavours : List Str
  arch : Option Str
deriving Repr, DecidableEq

/-- Index of the first occurrence of `c` in `s`, mirroring Rust
`str::find(char)` (which returns the byte index; on the character-level
model this is the character index). -/
def findChar : Str → Char → Option Nat
  | [], _ => none
  | a :: as, c => if a = c then some 0 else (findChar as c).map (· + 1)

/-- Index of the last occurrence of `c` in `s`, mirroring Rust
`str::rfind(char)`. -/
def rfindChar : Str → Char → Option Nat
  | [], _ => none
  | a :: as, c =>
    match rfindChar as c with
    | some i => some (i + 1)
    | none => if a = c then some 0 else none

/-- Rust `str::split(char)` semantics: splitting the empty string yields
one empty segment, every separator occurrence starts a new segment. -/
def splitOnChar : Str → Char → List Str
  | [], _ => [[]]
  | a :: as, c =>
    if a = c then [] :: splitOnChar as c
    else
      match splitOnChar as c with
      | [] => [[a]]
      | g :: gs => (a :: g) :: gs

/-- Embeds `package_id.rs` lines 12-16: strip everything after the last
`#` as the architecture. -/
def splitArch (s : Str) : Str × Option Str :=
  match rfindChar s '#' with
  | some pos => (s.take pos, some (s.drop (pos + 1)))
  | none => (s, none)

/-- Embeds `package_id.rs` lines 18-22: the part before the first `/` is
the repository, defaulting to `"default"`. -/
def splitRepo (rest : Str) : Str × Str :=
  match findChar rest '/' with
  | some pos => (rest.take pos, rest.drop (pos + 1))
  | none => ("default".data, rest)

/-- Embeds `package_id.rs` lines 24-34: the part before the first `@` is
the name; with no `@` but a `:`, the part before the first `:` is the name
and the remainder becomes `"latest:" ++ suffix`; otherwise the whole
remainder is the name and the version-and-flavours string is `"latest"`. -/
def splitName (rest : Str) : Str × Str :=
  match findChar rest '@' with
  | some pos => (rest.take pos, rest.drop (pos + 1))
  | none =>
    match findChar rest ':' with
    | some pos => (rest.take pos, "latest:".data ++ rest.drop (pos + 1))
    | none => (rest, "latest".data)

/-- Embeds `package_id.rs` lines 36-38: split the combined
version-and-flavours string on `:`; the first item of the split iterator
(defaulted to `"latest"` when the iterator is empty, mirroring
`parts.next().unwrap_or("latest")`) is the version, the remaining items
are the flavours. -/
def parseVersionFlavours (rest : Str) : Str × List Str :=
  let parts := splitOnChar rest ':'
  (parts.head?.getD "latest".data, parts.tail)

/-- Embeds `PackageId::from_id_str` from `src/model/package_id.rs`. -/
def PackageId.from_id_str (s : Str) : PackageId :=
  let (rest1, arch) := splitArch s
  let (repo, rest2) := splitRepo rest1
  let (name, rest3) := splitName rest2
  let (version, flavours) := parseVersionFlavours rest3
  ⟨repo, name, version, flavours, arch⟩

/-- Filesystem paths, as lists of path segments (each segment a `Str`).
`PathBuf::push`/`Path::join` become list append. -/
abbrev FsPath := List Str

/-- File contents, as byte lists. -/
abbrev Content := List Nat

/-- Idealised filesystem state: a partial map from path to file content,
and a directory-existence predicate.  Filesystem primitives in the model
(`remove_file`, `rename`, `create_dir_all`) never fail; the code's
propagation of their unexpected failures as `IOError` is outside the
claims, which are all conditional on the ideal behaviours. -/
structure FS where
  files : FsPath → Option Content
  dirs : FsPath → Bool

/-- Mirrors `Path::is_file` on the model: a file exists at `p`. -/
def FS.is_file (fs : FS) (p : FsPath) : Bool :=
  (fs.files p).isSome

/-- Mirrors `std::fs::remove_file` on the model. -/
def FS.remove_file (fs : FS) (p : FsPath) : FS :=
  { fs with files := fun q => if q = p then none else fs.files q }

/-- Mirrors `std::fs::rename src dst`: fails (`IOError`) when no file is
at `src`; otherwise the content moves from `src` to `dst`, replacing any
prior content at `dst`. -/
def FS.rename (fs : FS) (src dst : FsPath) : Option FS :=
  match fs.files src with
  | none => none
  | some c =>
    some { fs with
            files := fun q =>
              if q = dst then some c else if q = src then none else fs.files q }

/-- Mirrors `std::fs::create_dir_all` on the model (only the target
directory's existence matters to the code). -/
def FS.create_dir_all (fs : FS) (p : FsPath) : FS :=
  { fs with dirs := fun q => if q = p then true else fs.dirs q }

/-- Error kinds of the spec taxonomy reachable from the cache code
(`anyhow` error strings in the source, classified per spec section 7). -/
inductive CacheError
  | IOError
  | ChecksumMismatch
deriving Repr, DecidableEq

/-- Hex digest string of a 256-bit hash value, mirroring
`blake3::Hash::to_string`: 64 lowercase hex characters, zero-padded. -/
def hexStr (h : Nat) : Str :=
  let ds := Nat.toDigits 16 h
  List.replicate (64 - ds.length) '0' ++ ds

/-- Embeds `Cache::get_cache_path` (`src/main.rs` lines 185-193):
`cache_dir / hex(hash)[0:2] / hex(hash)`. -/
def get_cache_path (cacheDir : FsPath) (h : Nat) : FsPath :=
  cacheDir ++ [(hexStr h).take 2, hexStr h]

/-- Embeds `Cache::hash_file` (`src/main.rs` lines 195-199): the blake3
digest of the file's bytes, or an `IOError` when the file cannot be
read.  `hashFn` abstracts the blake3 digest function. -/
def hash_file (hashFn : Content → Nat) (fs : FS) (p : FsPath) :
    Except CacheError Nat :=
  match fs.files p with
  | none => .error .IOError
  | some c => .ok (hashFn c)

/-- Embeds `Cache::validate` (`src/main.rs` lines 201-216), in
state-passing style: the returned pair is (result, filesystem state
afterwards).  No file at the cache path: `Ok(false)`, untouched state.
Content hash differs from `h`: the file is removed and `Ok(false)` is
returned.  Content hash equals `h`: `Ok(true)`, untouched state. -/
def validate (hashFn : Content → Nat) (cacheDir : FsPath) (fs : FS)
    (h : Nat) : Except CacheError Bool × FS :=
  let path := get_cache_path cacheDir h
  if fs.is_file path = false then (.ok false, fs)
  else
    match hash_file hashFn fs path with
    | .error e => (.error e, fs)
    | .ok computed =>
      if h ≠ computed then (.ok false, fs.remove_file path)
      else (.ok true, fs)

/-- Embeds `Cache::cache_tmp_file` (`src/main.rs` lines 218-234), in
state-passing style: ensure the two-character fan-out directory exists,
rename the temp file onto the cache path, then re-run `validate`; a false
validation is surfaced as the checksum-mismatch error. -/
def cache_tmp_file (hashFn : Content → Nat) (cacheDir : FsPath) (fs : FS)
    (tmpPath : FsPath) (h : Nat) : Except CacheError Unit × FS :=
  let targetDir := cacheDir ++ [(hexStr h).take 2]
  let fs1 := if fs.dirs targetDir = false then fs.create_dir_all targetDir else fs
  match fs1.rename tmpPath (get_cache_path cacheDir h) with
  | none => (.error .IOError, fs1)
  | some fs2 =>
    match validate hashFn cacheDir fs2 h with
    | (.error e, fs3) => (.error e, fs3)
    | (.ok b, fs3) =>
      if b = false then (.error .ChecksumMismatch, fs3) else (.ok (), fs3)

/-- Embeds `TempFile::new` (`src/main.rs` lines 155-162): the scratch
path is `<root>/tmp/<hex digest>`. -/
def tempFilePath (root : FsPath) (h : Nat) : FsPath :=
  root ++ ["tmp".data, hexStr h]

/-- Embeds `TetraRoot::cache` (`src/main.rs` lines 55-63): the cache
directory is `<root>/cache`. -/
def cacheDirOf (root : FsPath) : FsPath :=
  root ++ ["cache".data]

/-- Error kinds of the spec taxonomy reachable from
`Repository::resolve_package_id` (`anyhow` error strings in the source,
classified per spec section 7; the source's "Package name was empty" and
"Package with name {} could not be found." both classify as
`PackageNotFound`). -/
inductive ResolveError
  | PackageNotFound
  | VersionNotFound
  | FlavourCombinationNotFound
  | ArchitectureNotSupplied
  | RecipeNotFound
deriving Repr, DecidableEq

/-- The recipe document's filename, `"recipe.yml"` in the source. -/
def recipeFileName : Str := "recipe.yml".data

/-- Embeds `Repository::resolve_package_id` (`src/main.rs` lines
273-342): walk `pkgs_dir / firstChar(name) / name / version / flavours…`,
checking directory existence at each stage, then resolve the architecture
directory (explicit arch: no fallback; unset arch: default arch first,
then the architecture-less document).  Paths are built with plain segment
append, which models `PathBuf::push` exactly for nonempty segments;
`PathBuf::push("")` instead collapses (it appends no segment), so for
identifiers carrying an empty segment — notably the explicitly empty
architecture of a trailing-`#` identifier — the push-exact variant
`resolve_package_id_push` below is the faithful embedding
(`resolve_package_id_push_agrees` proves the two coincide whenever every
pushed segment is nonempty). -/
def resolve_package_id (fs : FS) (pkgsDir : FsPath) (pid : PackageId)
    (defaultArch : Str) : Except ResolveError FsPath :=
  match pid.name.head? with
  | none => .error .PackageNotFound
  | some c =>
    let namePath := pkgsDir ++ [[c], pid.name]
    if fs.dirs namePath = false then .error .PackageNotFound
    else
      let versionPath := namePath ++ [pid.version]
      if fs.dirs versionPath = false then .error .VersionNotFound
      else
        let flavourPath := versionPath ++ pid.flavours
        if fs.dirs flavourPath = false then .error .FlavourCombinationNotFound
        else
          match pid.arch with
          | some arch =>
            let archPath := flavourPath ++ [arch, recipeFileName]
            if fs.is_file archPath then .ok archPath
            else .error .ArchitectureNotSupplied
          | none =>
            let defPath := flavourPath ++ [defaultArch, recipeFileName]
            if fs.is_file defPath then .ok defPath
            else
              let basePath := flavourPath ++ [recipeFileName]
              if fs.is_file basePath then .ok basePath
              else .error .RecipeNotFound

/-- Rust `PathBuf::push` on the segment model: pushing a nonempty
segment appends it; pushing the empty string appends nothing (the
resulting `PathBuf` names the same file as the unpushed path — e.g.
`recipe_path.join("").join("recipe.yml")` is byte-identical to
`recipe_path.join("recipe.yml")`). -/
def pathPush (p : FsPath) (s : Str) : FsPath :=
  if s = [] then p else p ++ [s]

/-- Embeds `Repository::resolve_package_id` (`src/main.rs` lines
273-342) with every `PathBuf::push`/`Path::join` modelled by `pathPush`,
so that empty segments collapse exactly as they do for Rust paths.  This
is the variant under which the explicitly-empty-architecture identifier
(`…#`) is decided: its `<path>//recipe.yml` candidate is the very same
path as the architecture-less `<path>/recipe.yml`. -/
def resolve_package_id_push (fs : FS) (pkgsDir : FsPath) (pid : PackageId)
    (defaultArch : Str) : Except ResolveError FsPath :=
  match pid.name.head? with
  | none => .error .PackageNotFound
  | some c =>
    let namePath := pathPush (pathPush pkgsDir [c]) pid.name
    if fs.dirs namePath = false then .error .PackageNotFound
    else
      let versionPath := pathPush namePath pid.version
      if fs.dirs versionPath = false then .error .VersionNotFound
      else
        let flavourPath := pid.flavours.foldl pathPush versionPath
        if fs.dirs flavourPath = false then .error .FlavourCombinationNotFound
        else
          match pid.arch with
          | some arch =>
            let archPath := pathPush (pathPush flavourPath arch) recipeFileName
            if fs.is_file archPath then .ok archPath
            else .error .ArchitectureNotSupplied
          | none =>
            let defPath :=
              pathPush (pathPush flavourPath defaultArch) recipeFileName
            if fs.is_file defPath then .ok defPath
            else
              let basePath := pathPush flavourPath recipeFileName
              if fs.is_file basePath then .ok basePath
              else .error .RecipeNotFound

/-- Outcome of handling one source in the per-source loop of `main`
(`src/main.rs` lines 476-509), abstracting the external calls the loop
branches on:
`validateError` — `cache.validate` returned `Err` (line 483-489);
`alreadyCached` — `cache.validate` returned `Ok(true)` (line 491);
`initError` — `Downloader::new` returned `Err` (line 492-498);
`transportError` — `downloader.download()` returned `Err` (line 500-503);
`insertError` — `downloader.send_to_cache(&cache)` returned `Err`
(line 505-507);
`insertOk` — the insert succeeded. -/
inductive FetchStep
  | validateError
  | alreadyCached
  | initError
  | transportError
  | insertError
  | insertOk
deriving Repr, DecidableEq

/-- Control-flow skeleton of the per-source loop of `main`
(`src/main.rs` lines 476-509): given the outcome of each declared source
in recipe order, the number of sources the loop actually reaches (i.e.
whose cache path is printed and whose `cache.validate` call is made).
`validateError`, `initError` and `transportError` each `return` from
`main`, aborting the loop; `insertError` only prints "Caching failed"
and falls through to the next iteration; `alreadyCached` and `insertOk`
continue normally. -/
def sourcesReached : List FetchStep → Nat
  | [] => 0
  | step :: rest =>
    match step with
    | .validateError => 1
    | .alreadyCached => 1 + sourcesReached rest
    | .initError => 1
    | .transportError => 1
    | .insertError => 1 + sourcesReached rest
    | .insertOk => 1 + sourcesReached rest

/-! Helper lemmas about the character-search and slicing primitives. -/

theorem findChar_eq_none_of_not_mem {c : Char} :
    ∀ {s : Str}, c ∉ s → findChar s c = none
  | [], _ => rfl
  | a :: as, h => by
    have ha : ¬a = c := fun hac => h (hac ▸ List.mem_cons_self a as)
    have has : c ∉ as := fun hm => h (List.mem_cons_of_mem a hm)
    simp [findChar, ha, findChar_eq_none_of_not_mem has]

theorem findChar_append_cons_self {c : Char} :
    ∀ {xs : Str}, c ∉ xs → ∀ ys : Str,
      findChar (xs ++ c :: ys) c = some xs.length
  | [], _, ys => by simp [findChar]
  | a :: as, h, ys => by
    have ha : ¬a = c := fun hac => h (hac ▸ List.mem_cons_self a as)
    have has : c ∉ as := fun hm => h (List.mem_cons_of_mem a hm)
    simp [findChar, ha, findChar_append_cons_self has ys]

theorem rfindChar_append_cons_self {c : Char} {ys : Str} (h : c ∉ ys) :
    ∀ xs : Str, rfindChar (xs ++ c :: ys) c = some xs.length
  | [] => by
    have hys : rfindChar ys c = none := by
      induction ys with
      | nil => rfl
      | cons b bs ih =>
        have hb : ¬b = c := fun hbc => h (hbc ▸ List.mem_cons_self b bs)
        have hbs : c ∉ bs := fun hm => h (List.mem_cons_of_mem b hm)
        simp [rfindChar, hb, ih hbs]
    simp [rfindChar, hys]
  | a :: as => by
    simp [rfindChar, rfindChar_append_cons_self h as]

theorem take_length_append (xs ys : Str) : (xs ++ ys).take xs.length = xs := by
  induction xs with
  | nil => rfl
  | cons a as ih => simp [ih]

theorem drop_length_append_cons (xs : Str) (c : Char) (ys : Str) :
    (xs ++ c :: ys).drop (xs.length + 1) = ys := by
  induction xs with
  | nil => rfl
  | cons a as ih => simp [ih]

/-- Character-level characterisation of the stage pipeline of
`from_id_str` on an input exhibiting all four separators. -/
theorem from_id_str_full (r n vf a : Str)
    (ha : '#' ∉ a) (hr : '/' ∉ r) (hn : '@' ∉ n) :
    PackageId.from_id_str (r ++ '/' :: n ++ '@' :: vf ++ '#' :: a) =
      ⟨r, n, (splitOnChar vf ':').head?.getD "latest".data,
        (splitOnChar vf ':').tail, some a⟩ := by
  have harch :
      rfindChar ((r ++ '/' :: (n ++ '@' :: vf)) ++ '#' :: a) '#' =
        some (r ++ '/' :: (n ++ '@' :: vf)).length :=
    rfindChar_append_cons_self ha _
  have hrepo : findChar (r ++ '/' :: (n ++ '@' :: vf)) '/' = some r.length :=
    findChar_append_cons_self hr _
  have hname : findChar (n ++ '@' :: vf) '@' = some n.length :=
    findChar_append_cons_self hn _
  have hs : r ++ '/' :: n ++ '@' :: vf ++ '#' :: a =
      (r ++ '/' :: (n ++ '@' :: vf)) ++ '#' :: a := by simp
  rw [hs]
  simp only [PackageId.from_id_str, splitArch, splitRepo, splitName,
    parseVersionFlavours, harch, hrepo, hname, take_length_append,
    drop_length_append_cons]

/-- Splitting `"latest:" ++ suffix` on `:` yields `"latest"` followed by
the split of `suffix`; this drives the no-`@`-but-`:` branch of name
splitting. -/
theorem splitOnChar_latest_append (s : Str) :
    splitOnChar ('l' :: 'a' :: 't' :: 'e' :: 's' :: 't' :: ':' :: s) ':' =
      ['l', 'a', 't', 'e', 's', 't'] :: splitOnChar s ':' :=
  rfl

/-- C5: the parser takes everything after the last `#` as arch, then the
prefix before the first `/` as repo, then the prefix before the first `@`
as name, with the suffix split on `:` into version followed by the
ordered flavours; in particular
`parse("myrepo/foo@1.2:flavA:flavB#arm64")` yields
`{repo:"myrepo", name:"foo", version:"1.2", flavours:["flavA","flavB"],
arch:"arm64"}` and `parse("r/n@v")` yields version `"v"` with empty
flavours. -/
theorem C5_parser_decomposition :
    (∀ r n vf a : Str, '#' ∉ a → '/' ∉ r → '@' ∉ n →
      PackageId.from_id_str (r ++ '/' :: n ++ '@' :: vf ++ '#' :: a) =
        ⟨r, n, (splitOnChar vf ':').head?.getD "latest".data,
          (splitOnChar vf ':').tail, some a⟩) ∧
    PackageId.from_id_str "myrepo/foo@1.2:flavA:flavB#arm64".data =
      ⟨"myrepo".data, "foo".data, "1.2".data, ["flavA".data, "flavB".data],
        some "arm64".data⟩ ∧
    PackageId.from_id_str "r/n@v".data =
      ⟨"r".data, "n".data, "v".data, [], none⟩ :=
  ⟨from_id_str_full, by decide, by decide⟩

/-- Witness for C5: the general conjunct applied at a concrete input,
with the separator-freeness hypotheses discharged by `decide`. -/
theorem C5_parser_decomposition_witness :
    PackageId.from_id_str
        ("my".data ++ '/' :: "foo".data ++ '@' :: "1:fl".data ++ '#' :: "a64".data) =
      ⟨"my".data, "foo".data,
        (splitOnChar "1:fl".data ':').head?.getD "latest".data,
        (splitOnChar "1:fl".data ':').tail, some "a64".data⟩ :=
  C5_parser_decomposition.1 "my".data "foo".data "1:fl".data "a64".data
    (by decide) (by decide) (by decide)

/-- C6: with a `:` but no `@` in the name-remainder, the prefix before
the first `:` becomes the name, the remainder is reinterpreted as
`"latest:" ++ suffix`, so the version is forced to `"latest"` and the
colon-delimited suffix, in order, becomes the flavour list; in particular
`parse("foo:flavA")` yields `{repo:"default", name:"foo",
version:"latest", flavours:["flavA"], arch:unset}`. -/
theorem C6_colon_without_at :
    (∀ (rest : Str) (pos : Nat), findChar rest '@' = none →
      findChar rest ':' = some pos →
      splitName rest = (rest.take pos, "latest:".data ++ rest.drop (pos + 1)) ∧
      parseVersionFlavours ("latest:".data ++ rest.drop (pos + 1)) =
        ("latest".data, splitOnChar (rest.drop (pos + 1)) ':')) ∧
    PackageId.from_id_str "foo:flavA".data =
      ⟨"default".data, "foo".data, "latest".data, ["flavA".data], none⟩ := by
  constructor
  · intro rest pos hat hcolon
    refine ⟨by simp [splitName, hat, hcolon], ?_⟩
    simp [parseVersionFlavours, splitOnChar_latest_append]
  · decide

/-- Witness for C6: the general conjunct applied at the name-remainder
`"foo:flavA"` with its hypotheses discharged by `decide`. -/
theorem C6_colon_without_at_witness :
    splitName "foo:flavA".data =
      ("foo:flavA".data.take 3, "latest:".data ++ "foo:flavA".data.drop 4) ∧
    parseVersionFlavours ("latest:".data ++ "foo:flavA".data.drop 4) =
      ("latest".data, splitOnChar ("foo:flavA".data.drop 4) ':') :=
  C6_colon_without_at.1 "foo:flavA".data 3 (by decide) (by decide)

/-- C7: evaluation of the parser at the inputs whose combined
version-and-flavours string has an empty first segment.  The code yields
the empty string as the version, not the default `"latest"`: Rust
`str::split` always yields a first (possibly empty) segment, so the
`unwrap_or("latest")` fallback at `package_id.rs` line 37 can never
apply. -/
theorem C7_empty_version_segment :
    PackageId.from_id_str "r/n@".data = ⟨"r".data, "n".data, [], [], none⟩ ∧
    PackageId.from_id_str "r/n@:flavA".data =
      ⟨"r".data, "n".data, [], ["flavA".data], none⟩ := by
  decide

/-- Every input ending in `#` parses with the architecture explicitly
set to the empty string: the final `#` is the last one, so everything
after it — nothing — becomes the arch. -/
theorem from_id_str_trailing_hash (s : Str) :
    (PackageId.from_id_str (s ++ ['#'])).arch = some [] := by
  have hsplit : splitArch (s ++ ['#']) = (s, some []) := by
    simp [splitArch, rfindChar_append_cons_self (List.not_mem_nil '#') s,
      take_length_append, drop_length_append_cons]
  rcases h2 : splitRepo s with ⟨repo, rest2⟩
  rcases h3 : splitName rest2 with ⟨name, rest3⟩
  rcases h4 : parseVersionFlavours rest3 with ⟨version, flavours⟩
  simp [PackageId.from_id_str, hsplit, h2, h3, h4]

/-- C8: the resolver's directory-resolution misses: empty name, or a
missing `pkgsDir/firstChar(name)/name` directory, give `PackageNotFound`;
an existing name directory with a missing version subdirectory gives
`VersionNotFound`; an existing name/version path with a missing flavour
chain gives `FlavourCombinationNotFound`. -/
theorem C8_resolver_miss_taxonomy :
    (∀ (fs : FS) (pkgsDir : FsPath) (repo version : Str)
        (flavours : List Str) (arch : Option Str) (defaultArch : Str),
      resolve_package_id fs pkgsDir ⟨repo, [], version, flavours, arch⟩
        defaultArch = .error .PackageNotFound) ∧
    (∀ (fs : FS) (pkgsDir : FsPath) (repo : Str) (c : Char)
        (cs version : Str) (flavours : List Str) (arch : Option Str)
        (defaultArch : Str),
      fs.dirs (pkgsDir ++ [[c], c :: cs]) = false →
      resolve_package_id fs pkgsDir ⟨repo, c :: cs, version, flavours, arch⟩
        defaultArch = .error .PackageNotFound) ∧
    (∀ (fs : FS) (pkgsDir : FsPath) (repo : Str) (c : Char)
        (cs version : Str) (flavours : List Str) (arch : Option Str)
        (defaultArch : Str),
      fs.dirs (pkgsDir ++ [[c], c :: cs]) = true →
      fs.dirs (pkgsDir ++ [[c], c :: cs, version]) = false →
      resolve_package_id fs pkgsDir ⟨repo, c :: cs, version, flavours, arch⟩
        defaultArch = .error .VersionNotFound) ∧
    (∀ (fs : FS) (pkgsDir : FsPath) (repo : Str) (c : Char)
        (cs version : Str) (flavours : List Str) (arch : Option Str)
        (defaultArch : Str),
      fs.dirs (pkgsDir ++ [[c], c :: cs]) = true →
      fs.dirs (pkgsDir ++ [[c], c :: cs, version]) = true →
      fs.dirs (pkgsDir ++ [c] :: (c :: cs) :: version :: flavours) = false →
      resolve_package_id fs pkgsDir ⟨repo, c :: cs, version, flavours, arch⟩
        defaultArch = .error .FlavourCombinationNotFound) := by
  refine ⟨?_, ?_, ?_, ?_⟩
  · intro fs pkgsDir repo version flavours arch defaultArch
    simp [resolve_package_id]
  · intro fs pkgsDir repo c cs version flavours arch defaultArch h1
    simp [resolve_package_id, h1]
  · intro fs pkgsDir repo c cs version flavours arch defaultArch h1 h2
    simp [resolve_package_id, h1, h2]
  · intro fs pkgsDir repo c cs version flavours arch defaultArch h1 h2 h3
    simp [resolve_package_id, h1, h2, h3]

/-- Witness for C8: the four miss kinds exhibited on concrete
filesystems (no directories at all; only the name directory; name and
version directories but no flavour directory). -/
theorem C8_resolver_miss_taxonomy_witness :
    resolve_package_id ⟨fun _ => none, fun _ => false⟩ []
        ⟨"r".data, [], "1".data, [], none⟩ "a".data =
      .error .PackageNotFound ∧
    resolve_package_id ⟨fun _ => none, fun _ => false⟩ []
        ⟨"r".data, "p".data, "1".data, [], none⟩ "a".data =
      .error .PackageNotFound ∧
    resolve_package_id
        ⟨fun _ => none, fun p => p = [['p'], "p".data]⟩ []
        ⟨"r".data, "p".data, "1".data, [], none⟩ "a".data =
      .error .VersionNotFound ∧
    resolve_package_id
        ⟨fun _ => none,
          fun p => p = [['p'], "p".data] ∨ p = [['p'], "p".data, "1".data]⟩ []
        ⟨"r".data, "p".data, "1".data, ["f".data], none⟩ "a".data =
      .error .FlavourCombinationNotFound :=
  ⟨C8_resolver_miss_taxonomy.1 _ _ _ _ _ _ _,
    C8_resolver_miss_taxonomy.2.1 _ _ _ 'p' "".data _ _ _ _ (by decide),
    C8_resolver_miss_taxonomy.2.2.1 _ _ _ 'p' "".data _ _ _ _ (by decide)
      (by decide),
    C8_resolver_miss_taxonomy.2.2.2 _ _ _ 'p' "".data _ _ _ _ (by decide)
      (by decide) (by decide)⟩

/-- C9: architecture resolution at an existing flavour path.  With an
explicitly set arch, `<path>/<arch>/recipe.yml` is returned exactly when
it exists as a file, and otherwise the resolver fails with
`ArchitectureNotSupplied` without falling back; with arch unset, the
default-arch document is tried first, then the architecture-less
document, and `RecipeNotFound` is the failure when neither exists. -/
theorem C9_resolver_arch_resolution :
    (∀ (fs : FS) (pkgsDir : FsPath) (repo : Str) (c : Char)
        (cs version : Str) (flavours : List Str) (defaultArch arch : Str),
      fs.dirs (pkgsDir ++ [[c], c :: cs]) = true →
      fs.dirs (pkgsDir ++ [[c], c :: cs, version]) = true →
      fs.dirs (pkgsDir ++ [c] :: (c :: cs) :: version :: flavours) = true →
      ((fs.is_file (pkgsDir ++ [c] :: (c :: cs) :: version ::
          (flavours ++ [arch, recipeFileName])) = true →
        resolve_package_id fs pkgsDir
            ⟨repo, c :: cs, version, flavours, some arch⟩ defaultArch =
          .ok (pkgsDir ++ [c] :: (c :: cs) :: version ::
            (flavours ++ [arch, recipeFileName]))) ∧
       (fs.is_file (pkgsDir ++ [c] :: (c :: cs) :: version ::
          (flavours ++ [arch, recipeFileName])) = false →
        resolve_package_id fs pkgsDir
            ⟨repo, c :: cs, version, flavours, some arch⟩ defaultArch =
          .error .ArchitectureNotSupplied))) ∧
    (∀ (fs : FS) (pkgsDir : FsPath) (repo : Str) (c : Char)
        (cs version : Str) (flavours : List Str) (defaultArch : Str),
      fs.dirs (pkgsDir ++ [[c], c :: cs]) = true →
      fs.dirs (pkgsDir ++ [[c], c :: cs, version]) = true →
      fs.dirs (pkgsDir ++ [c] :: (c :: cs) :: version :: flavours) = true →
      ((fs.is_file (pkgsDir ++ [c] :: (c :: cs) :: version ::
          (flavours ++ [defaultArch, recipeFileName])) = true →
        resolve_package_id fs pkgsDir
            ⟨repo, c :: cs, version, flavours, none⟩ defaultArch =
          .ok (pkgsDir ++ [c] :: (c :: cs) :: version ::
            (flavours ++ [defaultArch, recipeFileName]))) ∧
       (fs.is_file (pkgsDir ++ [c] :: (c :: cs) :: version ::
          (flavours ++ [defaultArch, recipeFileName])) = false →
        fs.is_file (pkgsDir ++ [c] :: (c :: cs) :: version ::
          (flavours ++ [recipeFileName])) = true →
        resolve_package_id fs pkgsDir
            ⟨repo, c :: cs, version, flavours, none⟩ defaultArch =
          .ok (pkgsDir ++ [c] :: (c :: cs) :: version ::
            (flavours ++ [recipeFileName]))) ∧
       (fs.is_file (pkgsDir ++ [c] :: (c :: cs) :: version ::
          (flavours ++ [defaultArch, recipeFileName])) = false →
        fs.is_file (pkgsDir ++ [c] :: (c :: cs) :: version ::
          (flavours ++ [recipeFileName])) = false →
        resolve_package_id fs pkgsDir
            ⟨repo, c :: cs, version, flavours, none⟩ defaultArch =
          .error .RecipeNotFound))) := by
  constructor
  · intro fs pkgsDir repo c cs version flavours defaultArch arch h1 h2 h3
    constructor
    · intro hf
      simp [resolve_package_id, h1, h2, h3, hf]
    · intro hf
      simp [resolve_package_id, h1, h2, h3, hf]
  · intro fs pkgsDir repo c cs version flavours defaultArch h1 h2 h3
    refine ⟨?_, ?_, ?_⟩
    · intro hd
      simp [resolve_package_id, h1, h2, h3, hd]
    · intro hd hb
      simp [resolve_package_id, h1, h2, h3, hd, hb]
    · intro hd hb
      simp [resolve_package_id, h1, h2, h3, hd, hb]

/-- Witness for C9: the spec's section-8 resolver scenario, on a
fabricated tree holding `pkgs/p/pkgname/1.0/arch1/recipe.yml` and no
architecture-less fallback: requesting `arch1` explicitly resolves to
that file, requesting `arch2` explicitly fails with
`ArchitectureNotSupplied`, and leaving the arch unset with default
`arch2` falls through both candidates to `RecipeNotFound`. -/
theorem C9_resolver_arch_resolution_witness :
    resolve_package_id
        ⟨fun p =>
          if p = [['p'], "pkgname".data, "1.0".data, "arch1".data,
              recipeFileName] then some [] else none,
          fun p => p = [['p'], "pkgname".data] ∨
            p = [['p'], "pkgname".data, "1.0".data]⟩ []
        ⟨"local".data, "pkgname".data, "1.0".data, [], some "arch1".data⟩
        "arch2".data =
      .ok [['p'], "pkgname".data, "1.0".data, "arch1".data, recipeFileName] ∧
    resolve_package_id
        ⟨fun p =>
          if p = [['p'], "pkgname".data, "1.0".data, "arch1".data,
              recipeFileName] then some [] else none,
          fun p => p = [['p'], "pkgname".data] ∨
            p = [['p'], "pkgname".data, "1.0".data]⟩ []
        ⟨"local".data, "pkgname".data, "1.0".data, [], some "arch2".data⟩
        "arch2".data =
      .error .ArchitectureNotSupplied ∧
    resolve_package_id
        ⟨fun p =>
          if p = [['p'], "pkgname".data, "1.0".data, "arch1".data,
              recipeFileName] then some [] else none,
          fun p => p = [['p'], "pkgname".data] ∨
            p = [['p'], "pkgname".data, "1.0".data]⟩ []
        ⟨"local".data, "pkgname".data, "1.0".data, [], none⟩ "arch2".data =
      .error .RecipeNotFound :=
  ⟨(C9_resolver_arch_resolution.1 _ _ _ 'p' "kgname".data _ _ _ _
      (by decide) (by decide) (by decide)).1 (by decide),
    (C9_resolver_arch_resolution.1 _ _ _ 'p' "kgname".data _ _ _ _
      (by decide) (by decide) (by decide)).2 (by decide),
    (C9_resolver_arch_resolution.2 _ _ _ 'p' "kgname".data _ _ _
      (by decide) (by decide) (by decide)).2.2 (by decide) (by decide)⟩

/-- Pushing the empty segment appends nothing. -/
theorem pathPush_nil (p : FsPath) : pathPush p [] = p := by
  simp [pathPush]

/-- Pushing a nonempty segment appends it. -/
theorem pathPush_cons (p : FsPath) (a : Char) (s : Str) :
    pathPush p (a :: s) = p ++ [a :: s] := by
  simp [pathPush]

/-- Pushing the (nonempty) recipe filename appends it. -/
theorem pathPush_recipe (p : FsPath) :
    pathPush p recipeFileName = p ++ [recipeFileName] := by
  simp [pathPush, recipeFileName]

/-- Folding `pathPush` over nonempty segments is plain append. -/
theorem foldl_pathPush_eq_append (p : FsPath) (l : List Str)
    (hl : ∀ f ∈ l, f ≠ []) : l.foldl pathPush p = p ++ l := by
  induction l generalizing p with
  | nil => simp
  | cons x xs ih =>
    have hx : x ≠ [] := hl x (List.mem_cons_self x xs)
    have hxs : ∀ f ∈ xs, f ≠ [] := fun f hf => hl f (List.mem_cons_of_mem x hf)
    simp [pathPush, hx, ih (p ++ [x]) hxs]

/-- On identifiers and default architectures whose pushed segments are
all nonempty, the push-exact resolver coincides with the plain-append
resolver: the two embeddings differ only where an empty segment is
pushed. -/
theorem resolve_package_id_push_agrees (fs : FS) (pkgsDir : FsPath)
    (pid : PackageId) (defaultArch : Str)
    (hv : pid.version ≠ []) (hfl : ∀ f ∈ pid.flavours, f ≠ [])
    (ha : ∀ a, pid.arch = some a → a ≠ []) (hd : defaultArch ≠ []) :
    resolve_package_id_push fs pkgsDir pid defaultArch =
      resolve_package_id fs pkgsDir pid defaultArch := by
  obtain ⟨repo, name, version, flavours, arch⟩ := pid
  simp only at hv hfl ha
  cases name with
  | nil => simp [resolve_package_id, resolve_package_id_push]
  | cons c cs =>
    have hfold :=
      foldl_pathPush_eq_append (pkgsDir ++ [[c], c :: cs, version]) flavours hfl
    cases arch with
    | none =>
      simp [resolve_package_id, resolve_package_id_push, pathPush_cons,
        pathPush, recipeFileName, hv, hd, hfold]
    | some a =>
      have haa : a ≠ [] := ha a rfl
      simp [resolve_package_id, resolve_package_id_push, pathPush_cons,
        pathPush, recipeFileName, hv, haa, hfold]

/-- Witness-style check that the agreement theorem is applicable: a
concrete nonempty-segment identifier resolved identically by both
resolver embeddings. -/
theorem resolve_package_id_push_agrees_witness :
    resolve_package_id_push ⟨fun _ => none, fun _ => false⟩ []
        ⟨"r".data, "p".data, "1".data, ["f".data], some "a".data⟩ "d".data =
      resolve_package_id ⟨fun _ => none, fun _ => false⟩ []
        ⟨"r".data, "p".data, "1".data, ["f".data], some "a".data⟩ "d".data :=
  resolve_package_id_push_agrees _ _ _ _ (by decide)
    (by intro f hf; simp at hf; simp [hf])
    (by intro a ha; simp at ha; subst ha; decide)
    (by decide)

/-- C10: an input ending in `#` parses with arch explicitly set to the
empty string (not unset), e.g. `parse("foo#")`, and resolution of such an
identifier takes the explicit-architecture branch, never reaching the
default-arch-then-architecture-less fallback: it requires the
`<path>//recipe.yml` document — where pushing the empty architecture
segment collapses, so that requirement is the file at the
architecture-less path `<path>/recipe.yml` itself, returned `Ok` when
present — and fails with `ArchitectureNotSupplied` otherwise; the
outcome never consults `defaultArch`. -/
theorem C10_trailing_hash_empty_arch :
    (∀ s : Str, (PackageId.from_id_str (s ++ ['#'])).arch = some []) ∧
    PackageId.from_id_str "foo#".data =
      ⟨"default".data, "foo".data, "latest".data, [], some []⟩ ∧
    (∀ (fs : FS) (pkgsDir : FsPath) (repo : Str) (c : Char)
        (cs version : Str) (flavours : List Str) (defaultArch : Str),
      fs.dirs (pkgsDir ++ [[c], c :: cs]) = true →
      fs.dirs (pathPush (pkgsDir ++ [[c], c :: cs]) version) = true →
      fs.dirs (flavours.foldl pathPush
        (pathPush (pkgsDir ++ [[c], c :: cs]) version)) = true →
      ((fs.is_file (flavours.foldl pathPush
          (pathPush (pkgsDir ++ [[c], c :: cs]) version) ++
            [recipeFileName]) = true →
        resolve_package_id_push fs pkgsDir
            ⟨repo, c :: cs, version, flavours, some []⟩ defaultArch =
          .ok (flavours.foldl pathPush
            (pathPush (pkgsDir ++ [[c], c :: cs]) version) ++
              [recipeFileName])) ∧
       (fs.is_file (flavours.foldl pathPush
          (pathPush (pkgsDir ++ [[c], c :: cs]) version) ++
            [recipeFileName]) = false →
        resolve_package_id_push fs pkgsDir
            ⟨repo, c :: cs, version, flavours, some []⟩ defaultArch =
          .error .ArchitectureNotSupplied))) := by
  refine ⟨from_id_str_trailing_hash, by decide, ?_⟩
  intro fs pkgsDir repo c cs version flavours defaultArch h1 h2 h3
  constructor
  · intro hf
    simp [resolve_package_id_push, pathPush_cons, pathPush_nil,
      pathPush_recipe, h1, h2, h3, hf]
  · intro hf
    simp [resolve_package_id_push, pathPush_cons, pathPush_nil,
      pathPush_recipe, h1, h2, h3, hf]

/-- Witness for C10: `parse("foo#")` resolved against a tree holding
only the architecture-less `pkgs/f/foo/latest/recipe.yml`: the explicit
empty-arch branch is taken and its collapsed candidate
`…/latest//recipe.yml` is that very file, returned `Ok`; with no recipe
document at all, the same branch fails with `ArchitectureNotSupplied`
(never `RecipeNotFound`, which would betray a fallback). -/
theorem C10_trailing_hash_empty_arch_witness :
    (PackageId.from_id_str ("foo".data ++ ['#'])).arch = some [] ∧
    resolve_package_id_push
        ⟨fun p =>
          if p = [['f'], "foo".data, "latest".data, recipeFileName] then
            some [] else none,
          fun p => p = [['f'], "foo".data] ∨
            p = [['f'], "foo".data, "latest".data]⟩ []
        ⟨"default".data, "foo".data, "latest".data, [], some []⟩ "a".data =
      .ok [['f'], "foo".data, "latest".data, recipeFileName] ∧
    resolve_package_id_push
        ⟨fun _ => none,
          fun p => p = [['f'], "foo".data] ∨
            p = [['f'], "foo".data, "latest".data]⟩ []
        ⟨"default".data, "foo".data, "latest".data, [], some []⟩ "a".data =
      .error .ArchitectureNotSupplied :=
  ⟨C10_trailing_hash_empty_arch.1 "foo".data,
    (C10_trailing_hash_empty_arch.2.2 _ _ _ 'f' "oo".data _ _ _
      (by decide) (by decide) (by decide)).1 (by decide),
    (C10_trailing_hash_empty_arch.2.2 _ _ _ 'f' "oo".data _ _ _
      (by decide) (by decide) (by decide)).2 (by decide)⟩

/-- The scratch path and the cache path can never coincide: they have
different segment counts below the same root (`root/tmp/<hex>` versus
`root/cache/<fan-out>/<hex>`). -/
theorem tempFilePath_ne_cachePath (root : FsPath) (h h2 : Nat) :
    tempFilePath root h ≠ get_cache_path (cacheDirOf root) h2 := by
  intro he
  have hl := congrArg List.length he
  simp [tempFilePath, get_cache_path, cacheDirOf] at hl

/-- C1: for every hash `h` — no file at `path(h)`: `validate` returns
`Ok(false)` and mutates nothing; a file whose content hashes to a value
different from `h`: `validate` returns `Ok(false)` and the file is absent
from disk afterwards; a file whose content hashes to `h`: `validate`
returns `Ok(true)` (and mutates nothing). -/
theorem C1_validate_cases (hashFn : Content → Nat) (cacheDir : FsPath)
    (fs : FS) (h : Nat) :
    (fs.files (get_cache_path cacheDir h) = none →
      validate hashFn cacheDir fs h = (.ok false, fs)) ∧
    (∀ c : Content, fs.files (get_cache_path cacheDir h) = some c →
      hashFn c ≠ h →
      validate hashFn cacheDir fs h =
        (.ok false, fs.remove_file (get_cache_path cacheDir h)) ∧
      (validate hashFn cacheDir fs h).2.files (get_cache_path cacheDir h) =
        none) ∧
    (∀ c : Content, fs.files (get_cache_path cacheDir h) = some c →
      hashFn c = h →
      validate hashFn cacheDir fs h = (.ok true, fs)) := by
  refine ⟨?_, ?_, ?_⟩
  · intro hnone
    simp [validate, FS.is_file, hnone]
  · intro c hc hne
    have hne2 : h ≠ hashFn c := fun he => hne he.symm
    constructor
    · simp [validate, hash_file, FS.is_file, hc, hne2]
    · simp [validate, hash_file, FS.is_file, hc, hne2, FS.remove_file]
  · intro c hc heq
    simp [validate, hash_file, FS.is_file, hc, heq]

/-- Witness for C1: the three cases exhibited with the length function
as the digest — an empty filesystem, a blob of the wrong length under
hash 5, and a blob of matching length under hash 1. -/
theorem C1_validate_cases_witness :
    validate (fun c => c.length) [] ⟨fun _ => none, fun _ => false⟩ 0 =
      (.ok false, ⟨fun _ => none, fun _ => false⟩) ∧
    (validate (fun c => c.length) []
        ⟨fun p => if p = get_cache_path [] 5 then some [7] else none,
          fun _ => false⟩ 5).2.files (get_cache_path [] 5) = none ∧
    validate (fun c => c.length) []
        ⟨fun p => if p = get_cache_path [] 1 then some [7] else none,
          fun _ => false⟩ 1 =
      (.ok true,
        ⟨fun p => if p = get_cache_path [] 1 then some [7] else none,
          fun _ => false⟩) :=
  ⟨(C1_validate_cases (fun c => c.length) [] ⟨fun _ => none, fun _ => false⟩
      0).1 rfl,
    ((C1_validate_cases (fun c => c.length) []
        ⟨fun p => if p = get_cache_path [] 5 then some [7] else none,
          fun _ => false⟩ 5).2.1 [7] (by simp) (by decide)).2,
    (C1_validate_cases (fun c => c.length) []
        ⟨fun p => if p = get_cache_path [] 1 then some [7] else none,
          fun _ => false⟩ 1).2.2 [7] (by simp) (by decide)⟩

/-- C2: inserting a temp file whose content hashes to `h` succeeds, and
afterwards the temp path holds no file, the blob (byte for byte) sits at
`cacheDir/hex(h)[0:2]/hex(h)`, and `validate h` returns `Ok(true)`
without further mutation. -/
theorem C2_cache_insert_ok (hashFn : Content → Nat) (root : FsPath)
    (fs : FS) (h : Nat) (c : Content)
    (hc : fs.files (tempFilePath root h) = some c) (hh : hashFn c = h) :
    (cache_tmp_file hashFn (cacheDirOf root) fs (tempFilePath root h) h).1 =
      .ok () ∧
    (cache_tmp_file hashFn (cacheDirOf root) fs
      (tempFilePath root h) h).2.files (tempFilePath root h) = none ∧
    (cache_tmp_file hashFn (cacheDirOf root) fs
      (tempFilePath root h) h).2.files (get_cache_path (cacheDirOf root) h) =
      some c ∧
    validate hashFn (cacheDirOf root)
        (cache_tmp_file hashFn (cacheDirOf root) fs
          (tempFilePath root h) h).2 h =
      (.ok true,
        (cache_tmp_file hashFn (cacheDirOf root) fs
          (tempFilePath root h) h).2) := by
  have hne := tempFilePath_ne_cachePath root h h
  by_cases hd :
      fs.dirs (cacheDirOf root ++ [(hexStr h).take 2]) = false <;>
    refine ⟨?_, ?_, ?_, ?_⟩ <;>
    simp [cache_tmp_file, FS.create_dir_all, FS.rename, validate, hash_file,
      FS.is_file, hc, hh, hd, hne]

/-- C3 (amended): inserting a temp file whose content hashes to a value
different from `h` returns the checksum-mismatch error, but the
relocated blob is NOT left in place: the `validate` call inside the
insert has already purged it, so afterwards neither the cache path nor
the temp path holds a file, and a subsequent `validate h` returns
`Ok(false)` as a plain miss without further mutation. -/
theorem C3_cache_insert_mismatch (hashFn : Content → Nat) (root : FsPath)
    (fs : FS) (h : Nat) (c : Content)
    (hc : fs.files (tempFilePath root h) = some c) (hne : hashFn c ≠ h) :
    (cache_tmp_file hashFn (cacheDirOf root) fs (tempFilePath root h) h).1 =
      .error .ChecksumMismatch ∧
    (cache_tmp_file hashFn (cacheDirOf root) fs
      (tempFilePath root h) h).2.files (get_cache_path (cacheDirOf root) h) =
      none ∧
    (cache_tmp_file hashFn (cacheDirOf root) fs
      (tempFilePath root h) h).2.files (tempFilePath root h) = none ∧
    validate hashFn (cacheDirOf root)
        (cache_tmp_file hashFn (cacheDirOf root) fs
          (tempFilePath root h) h).2 h =
      (.ok false,
        (cache_tmp_file hashFn (cacheDirOf root) fs
          (tempFilePath root h) h).2) := by
  have hpne := tempFilePath_ne_cachePath root h h
  have hne2 : h ≠ hashFn c := fun he => hne he.symm
  by_cases hd :
      fs.dirs (cacheDirOf root ++ [(hexStr h).take 2]) = false <;>
    refine ⟨?_, ?_, ?_, ?_⟩ <;>
    simp [cache_tmp_file, FS.create_dir_all, FS.rename, validate, hash_file,
      FS.is_file, FS.remove_file, hc, hne2, hd, hpne]

/-- Witness for C2: a one-byte blob under the length digest, inserted
from the scratch path for hash 1. -/
theorem C2_cache_insert_ok_witness :
    (cache_tmp_file (fun c => c.length) (cacheDirOf [])
        ⟨fun p => if p = tempFilePath [] 1 then some [9] else none,
          fun _ => false⟩
        (tempFilePath [] 1) 1).1 = .ok () ∧
    (cache_tmp_file (fun c => c.length) (cacheDirOf [])
        ⟨fun p => if p = tempFilePath [] 1 then some [9] else none,
          fun _ => false⟩
        (tempFilePath [] 1) 1).2.files (tempFilePath [] 1) = none ∧
    (cache_tmp_file (fun c => c.length) (cacheDirOf [])
        ⟨fun p => if p = tempFilePath [] 1 then some [9] else none,
          fun _ => false⟩
        (tempFilePath [] 1) 1).2.files (get_cache_path (cacheDirOf []) 1) =
      some [9] ∧
    validate (fun c => c.length) (cacheDirOf [])
        (cache_tmp_file (fun c => c.length) (cacheDirOf [])
          ⟨fun p => if p = tempFilePath [] 1 then some [9] else none,
            fun _ => false⟩
          (tempFilePath [] 1) 1).2 1 =
      (.ok true,
        (cache_tmp_file (fun c => c.length) (cacheDirOf [])
          ⟨fun p => if p = tempFilePath [] 1 then some [9] else none,
            fun _ => false⟩
          (tempFilePath [] 1) 1).2) :=
  C2_cache_insert_ok (fun c => c.length) []
    ⟨fun p => if p = tempFilePath [] 1 then some [9] else none,
      fun _ => false⟩ 1 [9] (by simp) (by decide)

/-- Witness for C3 (amended): a one-byte blob inserted under the wrong
hash 5: the error is returned and the relocated blob is already purged. -/
theorem C3_cache_insert_mismatch_witness :
    (cache_tmp_file (fun c => c.length) (cacheDirOf [])
        ⟨fun p => if p = tempFilePath [] 5 then some [7] else none,
          fun _ => false⟩
        (tempFilePath [] 5) 5).1 = .error .ChecksumMismatch ∧
    (cache_tmp_file (fun c => c.length) (cacheDirOf [])
        ⟨fun p => if p = tempFilePath [] 5 then some [7] else none,
          fun _ => false⟩
        (tempFilePath [] 5) 5).2.files (get_cache_path (cacheDirOf []) 5) =
      none ∧
    (cache_tmp_file (fun c => c.length) (cacheDirOf [])
        ⟨fun p => if p = tempFilePath [] 5 then some [7] else none,
          fun _ => false⟩
        (tempFilePath [] 5) 5).2.files (tempFilePath [] 5) = none ∧
    validate (fun c => c.length) (cacheDirOf [])
        (cache_tmp_file (fun c => c.length) (cacheDirOf [])
          ⟨fun p => if p = tempFilePath [] 5 then some [7] else none,
            fun _ => false⟩
          (tempFilePath [] 5) 5).2 5 =
      (.ok false,
        (cache_tmp_file (fun c => c.length) (cacheDirOf [])
          ⟨fun p => if p = tempFilePath [] 5 then some [7] else none,
            fun _ => false⟩
          (tempFilePath [] 5) 5).2) :=
  C3_cache_insert_mismatch (fun c => c.length) []
    ⟨fun p => if p = tempFilePath [] 5 then some [7] else none,
      fun _ => false⟩ 5 [7] (by simp) (by decide)

/-- Counterexample to C3 as stated: at a concrete mismatching insert
(content `[7]` of length-digest 1, expected hash 5), the insert does
return the checksum-mismatch error, but the relocated blob is NOT left
in place at `path(h)` — the cache path holds no file when the error is
returned, contradicting "the relocated invalid blob is left in place at
path(h), not purged". -/
theorem C3_counterexample :
    (cache_tmp_file (fun c => c.length) (cacheDirOf [])
        ⟨fun p => if p = tempFilePath [] 5 then some [7] else none,
          fun _ => false⟩
        (tempFilePath [] 5) 5).1 = .error .ChecksumMismatch ∧
    (cache_tmp_file (fun c => c.length) (cacheDirOf [])
        ⟨fun p => if p = tempFilePath [] 5 then some [7] else none,
          fun _ => false⟩
        (tempFilePath [] 5) 5).2.files (get_cache_path (cacheDirOf []) 5) =
      none := by
  constructor <;> rfl

/-- Counterexample to C4 as stated: a recipe with two sources whose
first source fails at the cache-insert step (`ChecksumMismatch` or
`IOError` from `send_to_cache`): the loop still reaches the second
source — both sources are validated — contradicting "no subsequent
source in the list is validated or fetched". -/
theorem C4_counterexample :
    sourcesReached [FetchStep.insertError, FetchStep.alreadyCached] = 2 :=
  rfl

/-- C4 (amended): a transport error during download — like a validate
error or a downloader-initialisation error — aborts the invocation at
that source, so no subsequent source is validated or fetched; but a
cache-insert failure (`ChecksumMismatch`/`IOError` from
`send_to_cache`) is only printed and the loop continues with the next
source. -/
theorem C4_fetch_loop_aborts (rest : List FetchStep) :
    sourcesReached (FetchStep.transportError :: rest) = 1 ∧
    sourcesReached (FetchStep.validateError :: rest) = 1 ∧
    sourcesReached (FetchStep.initError :: rest) = 1 ∧
    sourcesReached (FetchStep.insertError :: rest) = 1 + sourcesReached rest ∧
    sourcesReached (FetchStep.alreadyCached :: rest) =
      1 + sourcesReached rest :=
  ⟨rfl, rfl, rfl, rfl, rfl⟩

end TetraPkg
